import Mathlib

/-!
Verification of the Material element factory of the 3DOM sandboxed object
model (src/packages/3dom/src/api/material.ts).

The file shallowly embeds the `Material` class produced by `defineMaterial`:
its serialized snapshot shape, the kernel interface it consumes, its
constructor, and its accessors.  The constructor is embedded as a pure
function that, in source statement order, records every externally visible
call it makes (the `super` delegation and each `kernel.deserialize` call)
and threads the snapshot value through so that frame properties can be
stated.  `ModelKernel` and the `ThreeDOMElement` base class live outside
the excerpted source (model-kernel.ts and the element-base module), so
their behavior is modelled from the specification where a claim needs it.
-/

namespace ThreeDOM

/-- Serialized snapshot of a material, as the constructor of
src/packages/3dom/src/api/material.ts reads it: an optional `name` scalar,
a `pbrMetallicRoughness` nested snapshot and three optional texture nested
snapshots (`normalTexture`, `occlusionTexture`, `emissiveTexture`).  `Snap`
abstracts the nested snapshot payloads (their shape is owned by
protocol.ts, outside this file).  `id` is the stable identity that, per the
specification, the privileged side carries in every snapshot; every
field is `Option` because at runtime a (possibly malformed) snapshot may
omit or null any of them. -/
structure SerializedMaterial (Snap : Type) where
  id : Option Nat
  name : Option String
  pbrMetallicRoughness : Option Snap
  normalTexture : Option Snap
  occlusionTexture : Option Snap
  emissiveTexture : Option Snap
deriving Repr, DecidableEq

/-- Modelled from the spec: the kernel interface the Material constructor
consumes (ModelKernel of model-kernel.ts, outside the excerpted source).
Its `deserialize` entry point takes a kind discriminator string and a
(possibly nullish) nested snapshot and either yields the resolved nested
representation or surfaces a reportable error, which in the sandbox is a
thrown exception (`Except.error`). -/
structure ModelKernel (Snap Value : Type) where
  deserialize : String → Option Snap → Except String Value

/-- Modelled from the spec: the state the Element Base (ThreeDOMElement)
constructor establishes — the element's stable identity. -/
structure ThreeDOMElementState where
  identity : Nat
deriving Repr, DecidableEq

/-- Modelled from the spec: the Element Base (ThreeDOMElement) constructor,
whose source is outside this file.  Per the specification it takes the
kernel reference and the serialized snapshot and establishes identity and
the kernel binding, and a malformed snapshot with the identity missing
fails element construction immediately. -/
def ThreeDOMElement.construct {Snap Value : Type} (_kernel : ModelKernel Snap Value)
    (serialized : SerializedMaterial Snap) : Except String ThreeDOMElementState :=
  match serialized.id with
  | some i => Except.ok { identity := i }
  | none => Except.error "identity missing"

/-- A constructed Material instance: the base-class state plus the
symbol-keyed private slots of the class body ($kernel, $name,
$pbrMetallicRoughness, $normalTexture, $occlusionTexture,
$emissiveTexture).  The three texture slots and the name slot are `Option`
because the class leaves them unset (`null` / undefined) when the
corresponding snapshot field is absent. -/
structure Material (Snap Value : Type) where
  base : ThreeDOMElementState
  kernelSlot : ModelKernel Snap Value
  nameSlot : Option String
  pbrMetallicRoughnessSlot : Value
  normalTextureSlot : Option Value
  occlusionTextureSlot : Option Value
  emissiveTextureSlot : Option Value

/-- One externally visible action of the Material constructor: the initial
`super(kernel, serialized)` delegation, or one `kernel.deserialize(kind,
snapshot)` call. -/
inductive TraceEvent (Snap Value : Type) where
  | superCall (kernel : ModelKernel Snap Value) (serialized : SerializedMaterial Snap)
  | deserializeCall (kind : String) (arg : Option Snap)

/-- The outcome of running the Material constructor: the ordered trace of
its externally visible actions, the snapshot value as it stands after
construction, and either the constructed instance or the thrown error. -/
structure ConstructResult (Snap Value : Type) where
  trace : List (TraceEvent Snap Value)
  snapshotAfter : SerializedMaterial Snap
  result : Except String (Material Snap Value)

/-- The Material constructor of material.ts, statement by statement:
`super(kernel, serialized)`; `this[$kernel] = kernel`; copy `name` into
the $name slot only when non-null; destructure the four nested fields;
unconditionally `kernel.deserialize('pbr-metallic-roughness', ...)` into
the $pbrMetallicRoughness slot; then for each of normalTexture,
occlusionTexture and emissiveTexture, in that order, call
`kernel.deserialize('texture-info', ...)` only when the field is
non-null, leaving the slot at its `null` initializer otherwise.  A thrown
error aborts construction at that statement. -/
def Material.construct {Snap Value : Type} (kernel : ModelKernel Snap Value)
    (serialized : SerializedMaterial Snap) : ConstructResult Snap Value :=
  let trace0 := [TraceEvent.superCall kernel serialized]
  match ThreeDOMElement.construct kernel serialized with
  | Except.error e => { trace := trace0, snapshotAfter := serialized, result := Except.error e }
  | Except.ok base =>
    let kernelSlot := kernel
    let nameSlot : Option String :=
      match serialized.name with
      | some n => some n
      | none => none
    let trace1 := trace0 ++
      [TraceEvent.deserializeCall "pbr-metallic-roughness" serialized.pbrMetallicRoughness]
    match kernel.deserialize "pbr-metallic-roughness" serialized.pbrMetallicRoughness with
    | Except.error e => { trace := trace1, snapshotAfter := serialized, result := Except.error e }
    | Except.ok pbr =>
      match serialized.normalTexture with
      | none =>
        let trace2 := trace1
        match serialized.occlusionTexture with
        | none =>
          let trace3 := trace2
          match serialized.emissiveTexture with
          | none =>
            { trace := trace3, snapshotAfter := serialized,
              result := Except.ok
                { base := base, kernelSlot := kernelSlot, nameSlot := nameSlot,
                  pbrMetallicRoughnessSlot := pbr, normalTextureSlot := none,
                  occlusionTextureSlot := none, emissiveTextureSlot := none } }
          | some et =>
            let trace4 := trace3 ++ [TraceEvent.deserializeCall "texture-info" (some et)]
            match kernel.deserialize "texture-info" (some et) with
            | Except.error e =>
              { trace := trace4, snapshotAfter := serialized, result := Except.error e }
            | Except.ok etv =>
              { trace := trace4, snapshotAfter := serialized,
                result := Except.ok
                  { base := base, kernelSlot := kernelSlot, nameSlot := nameSlot,
                    pbrMetallicRoughnessSlot := pbr, normalTextureSlot := none,
                    occlusionTextureSlot := none, emissiveTextureSlot := some etv } }
        | some ot =>
          let trace3 := trace2 ++ [TraceEvent.deserializeCall "texture-info" (some ot)]
          match kernel.deserialize "texture-info" (some ot) with
          | Except.error e =>
            { trace := trace3, snapshotAfter := serialized, result := Except.error e }
          | Except.ok otv =>
            match serialized.emissiveTexture with
            | none =>
              { trace := trace3, snapshotAfter := serialized,
                result := Except.ok
                  { base := base, kernelSlot := kernelSlot, nameSlot := nameSlot,
                    pbrMetallicRoughnessSlot := pbr, normalTextureSlot := none,
                    occlusionTextureSlot := some otv, emissiveTextureSlot := none } }
            | some et =>
              let trace4 := trace3 ++ [TraceEvent.deserializeCall "texture-info" (some et)]
              match kernel.deserialize "texture-info" (some et) with
              | Except.error e =>
                { trace := trace4, snapshotAfter := serialized, result := Except.error e }
              | Except.ok etv =>
                { trace := trace4, snapshotAfter := serialized,
                  result := Except.ok
                    { base := base, kernelSlot := kernelSlot, nameSlot := nameSlot,
                      pbrMetallicRoughnessSlot := pbr, normalTextureSlot := none,
                      occlusionTextureSlot := some otv, emissiveTextureSlot := some etv } }
      | some nt =>
        let trace2 := trace1 ++ [TraceEvent.deserializeCall "texture-info" (some nt)]
        match kernel.deserialize "texture-info" (some nt) with
        | Except.error e =>
          { trace := trace2, snapshotAfter := serialized, result := Except.error e }
        | Except.ok ntv =>
          match serialized.occlusionTexture with
          | none =>
            let trace3 := trace2
            match serialized.emissiveTexture with
            | none =>
              { trace := trace3, snapshotAfter := serialized,
                result := Except.ok
                  { base := base, kernelSlot := kernelSlot, nameSlot := nameSlot,
                    pbrMetallicRoughnessSlot := pbr, normalTextureSlot := some ntv,
                    occlusionTextureSlot := none, emissiveTextureSlot := none } }
            | some et =>
              let trace4 := trace3 ++ [TraceEvent.deserializeCall "texture-info" (some et)]
              match kernel.deserialize "texture-info" (some et) with
              | Except.error e =>
                { trace := trace4, snapshotAfter := serialized, result := Except.error e }
              | Except.ok etv =>
                { trace := trace4, snapshotAfter := serialized,
                  result := Except.ok
                    { base := base, kernelSlot := kernelSlot, nameSlot := nameSlot,
                      pbrMetallicRoughnessSlot := pbr, normalTextureSlot := some ntv,
                      occlusionTextureSlot := none, emissiveTextureSlot := some etv } }
          | some ot =>
            let trace3 := trace2 ++ [TraceEvent.deserializeCall "texture-info" (some ot)]
            match kernel.deserialize "texture-info" (some ot) with
            | Except.error e =>
              { trace := trace3, snapshotAfter := serialized, result := Except.error e }
            | Except.ok otv =>
              match serialized.emissiveTexture with
              | none =>
                { trace := trace3, snapshotAfter := serialized,
                  result := Except.ok
                    { base := base, kernelSlot := kernelSlot, nameSlot := nameSlot,
                      pbrMetallicRoughnessSlot := pbr, normalTextureSlot := some ntv,
                      occlusionTextureSlot := some otv, emissiveTextureSlot := none } }
              | some et =>
                let trace4 := trace3 ++ [TraceEvent.deserializeCall "texture-info" (some et)]
                match kernel.deserialize "texture-info" (some et) with
                | Except.error e =>
                  { trace := trace4, snapshotAfter := serialized, result := Except.error e }
                | Except.ok etv =>
                  { trace := trace4, snapshotAfter := serialized,
                    result := Except.ok
                      { base := base, kernelSlot := kernelSlot, nameSlot := nameSlot,
                        pbrMetallicRoughnessSlot := pbr, normalTextureSlot := some ntv,
                        occlusionTextureSlot := some otv, emissiveTextureSlot := some etv } }

/-- The `pbrMetallicRoughness` getter of the class body. -/
def Material.pbrMetallicRoughness {Snap Value : Type} (m : Material Snap Value) : Value :=
  m.pbrMetallicRoughnessSlot

/-- The `normalTexture` getter of the class body. -/
def Material.normalTexture {Snap Value : Type} (m : Material Snap Value) : Option Value :=
  m.normalTextureSlot

/-- The `occlusionTexture` getter of the class body. -/
def Material.occlusionTexture {Snap Value : Type} (m : Material Snap Value) : Option Value :=
  m.occlusionTextureSlot

/-- The `emissiveTexture` getter of the class body. -/
def Material.emissiveTexture {Snap Value : Type} (m : Material Snap Value) : Option Value :=
  m.emissiveTextureSlot

/-- The `name` getter of the class body; reading an unset $name slot yields
undefined (`none`). -/
def Material.name {Snap Value : Type} (m : Material Snap Value) : Option String :=
  m.nameSlot

/-- The kind/argument pairs of the `kernel.deserialize` calls a
constructor run issued, in order. -/
def deserializeCalls {Snap Value : Type} (tr : List (TraceEvent Snap Value)) :
    List (String × Option Snap) :=
  tr.filterMap fun e =>
    match e with
    | TraceEvent.deserializeCall kind arg => some (kind, arg)
    | TraceEvent.superCall _ _ => none

/-- How many of the three optional texture fields of a snapshot are
present (non-null). -/
def numPresentTextures {Snap : Type} (s : SerializedMaterial Snap) : Nat :=
  [s.normalTexture, s.occlusionTexture, s.emissiveTexture].countP Option.isSome

/-- The public members of the Material class body: exactly the five
getters `pbrMetallicRoughness`, `normalTexture`, `occlusionTexture`,
`emissiveTexture` and `name`.  The class body declares no setter and no
other public member. -/
inductive MaterialMember where
  | pbrMetallicRoughness
  | normalTexture
  | occlusionTexture
  | emissiveTexture
  | name
deriving Repr, DecidableEq

/-- The value a public member access observes. -/
inductive Observation (Value : Type) where
  | pbrVal (v : Value)
  | textureVal (v : Option Value)
  | nameVal (n : Option String)

/-- Accessing one public member of a Material instance: every member is a
getter, so the access yields an observation and leaves the instance
exactly as it was — the class body offers no write path. -/
def Material.access {Snap Value : Type} (m : Material Snap Value) :
    MaterialMember → Material Snap Value × Observation Value
  | MaterialMember.pbrMetallicRoughness => (m, Observation.pbrVal m.pbrMetallicRoughness)
  | MaterialMember.normalTexture => (m, Observation.textureVal m.normalTexture)
  | MaterialMember.occlusionTexture => (m, Observation.textureVal m.occlusionTexture)
  | MaterialMember.emissiveTexture => (m, Observation.textureVal m.emissiveTexture)
  | MaterialMember.name => (m, Observation.nameVal m.name)

/-- A concrete kernel over `Nat` snapshots and values whose `deserialize`
always succeeds, used to evaluate the theorems on concrete inputs. -/
def natKernel : ModelKernel Nat Nat :=
  { deserialize := fun _ arg => Except.ok (arg.getD 0) }

/-- Modelled from the spec: a kernel honoring the fail-fast contract that
a malformed snapshot — here, a missing (nullish) required nested
snapshot — surfaces an error from `deserialize` instead of yielding a
value. -/
def strictKernel : ModelKernel Nat Nat :=
  { deserialize := fun _ arg =>
      match arg with
      | some v => Except.ok v
      | none => Except.error "missing required field" }

/-- A snapshot whose required `pbrMetallicRoughness` block is null. -/
def snapNullPbr : SerializedMaterial Nat :=
  { id := some 7, name := none, pbrMetallicRoughness := none,
    normalTexture := none, occlusionTexture := none, emissiveTexture := none }

/-- A snapshot carrying no identity. -/
def snapNoId : SerializedMaterial Nat :=
  { id := none, name := none, pbrMetallicRoughness := some 0,
    normalTexture := none, occlusionTexture := none, emissiveTexture := none }

/-- A well-formed snapshot with every optional texture field absent. -/
def snapTexturesAbsent : SerializedMaterial Nat :=
  { id := some 3, name := some "m", pbrMetallicRoughness := some 5,
    normalTexture := none, occlusionTexture := none, emissiveTexture := none }

/-- The material `snapTexturesAbsent` constructs under `natKernel`. -/
def matTexturesAbsent : Material Nat Nat :=
  { base := { identity := 3 }, kernelSlot := natKernel, nameSlot := some "m",
    pbrMetallicRoughnessSlot := 5, normalTextureSlot := none,
    occlusionTextureSlot := none, emissiveTextureSlot := none }

/-- The specification's worked example: `normalTexture` null, the other
two texture fields present. -/
def snapSpecExample : SerializedMaterial Nat :=
  { id := some 1, name := none, pbrMetallicRoughness := some 10,
    normalTexture := none, occlusionTexture := some 20, emissiveTexture := some 30 }

/-- The material `snapSpecExample` constructs under `natKernel`. -/
def matSpecExample : Material Nat Nat :=
  { base := { identity := 1 }, kernelSlot := natKernel, nameSlot := none,
    pbrMetallicRoughnessSlot := 10, normalTextureSlot := none,
    occlusionTextureSlot := some 20, emissiveTextureSlot := some 30 }

/-- A well-formed snapshot with the optional `name` omitted. -/
def snapNoName : SerializedMaterial Nat :=
  { id := some 2, name := none, pbrMetallicRoughness := some 4,
    normalTexture := none, occlusionTexture := none, emissiveTexture := none }

/-- The material `snapNoName` constructs under `natKernel`. -/
def matNoName : Material Nat Nat :=
  { base := { identity := 2 }, kernelSlot := natKernel, nameSlot := none,
    pbrMetallicRoughnessSlot := 4, normalTextureSlot := none,
    occlusionTextureSlot := none, emissiveTextureSlot := none }

/-- Two snapshots sharing the name "dup" under distinct identities. -/
def snapDupNameA : SerializedMaterial Nat :=
  { id := some 1, name := some "dup", pbrMetallicRoughness := some 0,
    normalTexture := none, occlusionTexture := none, emissiveTexture := none }

/-- The second snapshot sharing the name "dup", with identity 2. -/
def snapDupNameB : SerializedMaterial Nat :=
  { id := some 2, name := some "dup", pbrMetallicRoughness := some 0,
    normalTexture := none, occlusionTexture := none, emissiveTexture := none }

/-- The material `snapDupNameA` constructs under `natKernel`. -/
def matDupNameA : Material Nat Nat :=
  { base := { identity := 1 }, kernelSlot := natKernel, nameSlot := some "dup",
    pbrMetallicRoughnessSlot := 0, normalTextureSlot := none,
    occlusionTextureSlot := none, emissiveTextureSlot := none }

/-- The material `snapDupNameB` constructs under `natKernel`. -/
def matDupNameB : Material Nat Nat :=
  { base := { identity := 2 }, kernelSlot := natKernel, nameSlot := some "dup",
    pbrMetallicRoughnessSlot := 0, normalTextureSlot := none,
    occlusionTextureSlot := none, emissiveTextureSlot := none }

lemma base_construct_ok_iff {Snap Value : Type} (k : ModelKernel Snap Value)
    (s : SerializedMaterial Snap) (b : ThreeDOMElementState) :
    ThreeDOMElement.construct k s = Except.ok b ↔ s.id = some b.identity := by
  unfold ThreeDOMElement.construct
  cases hs : s.id <;> cases b <;> simp_all

lemma base_construct_error_iff {Snap Value : Type} (k : ModelKernel Snap Value)
    (s : SerializedMaterial Snap) (e : String) :
    ThreeDOMElement.construct k s = Except.error e ↔ s.id = none ∧ e = "identity missing" := by
  unfold ThreeDOMElement.construct
  cases hs : s.id <;> simp_all [eq_comm]

lemma construct_ok_char {Snap Value : Type} (k : ModelKernel Snap Value)
    (s : SerializedMaterial Snap) :
    ∀ m : Material Snap Value, (Material.construct k s).result = Except.ok m →
      s.id = some m.base.identity ∧ m.kernelSlot = k ∧ m.nameSlot = s.name ∧
      k.deserialize "pbr-metallic-roughness" s.pbrMetallicRoughness
        = Except.ok m.pbrMetallicRoughnessSlot ∧
      (s.normalTexture = none → m.normalTextureSlot = none) ∧
      (∀ t, s.normalTexture = some t →
        ∃ v, k.deserialize "texture-info" (some t) = Except.ok v ∧ m.normalTextureSlot = some v) ∧
      (s.occlusionTexture = none → m.occlusionTextureSlot = none) ∧
      (∀ t, s.occlusionTexture = some t →
        ∃ v, k.deserialize "texture-info" (some t) = Except.ok v ∧ m.occlusionTextureSlot = some v) ∧
      (s.emissiveTexture = none → m.emissiveTextureSlot = none) ∧
      (∀ t, s.emissiveTexture = some t →
        ∃ v, k.deserialize "texture-info" (some t) = Except.ok v ∧ m.emissiveTextureSlot = some v) := by
  unfold Material.construct
  dsimp only
  repeat' split
  all_goals intro m hm
  all_goals simp_all [base_construct_ok_iff]
  all_goals subst hm
  all_goals simp

lemma isOk_ok {e a : Type} (v : a) : (Except.ok v : Except e a).isOk = true := rfl

lemma isOk_error {e a : Type} (x : e) : (Except.error x : Except e a).isOk = false := rfl

lemma construct_isOk_iff {Snap Value : Type} (k : ModelKernel Snap Value)
    (s : SerializedMaterial Snap) :
    ((Material.construct k s).result).isOk = true ↔
      s.id.isSome = true ∧
      (k.deserialize "pbr-metallic-roughness" s.pbrMetallicRoughness).isOk = true ∧
      (∀ t, s.normalTexture = some t → (k.deserialize "texture-info" (some t)).isOk = true) ∧
      (∀ t, s.occlusionTexture = some t → (k.deserialize "texture-info" (some t)).isOk = true) ∧
      (∀ t, s.emissiveTexture = some t → (k.deserialize "texture-info" (some t)).isOk = true) := by
  unfold Material.construct
  dsimp only
  repeat' split
  all_goals simp_all [base_construct_ok_iff, base_construct_error_iff, isOk_ok, isOk_error]

lemma construct_trace_ok {Snap Value : Type} (k : ModelKernel Snap Value)
    (s : SerializedMaterial Snap) (h : ((Material.construct k s).result).isOk = true) :
    deserializeCalls (Material.construct k s).trace =
      ("pbr-metallic-roughness", s.pbrMetallicRoughness) ::
        (s.normalTexture.toList ++ s.occlusionTexture.toList ++ s.emissiveTexture.toList).map
          (fun t => ("texture-info", some t)) := by
  revert h
  unfold Material.construct
  dsimp only
  repeat' split
  all_goals intro h
  all_goals simp_all [deserializeCalls, isOk_ok, isOk_error]

lemma construct_trace_head {Snap Value : Type} (k : ModelKernel Snap Value)
    (s : SerializedMaterial Snap) :
    (Material.construct k s).trace.head? = some (TraceEvent.superCall k s) := by
  unfold Material.construct
  dsimp only
  repeat' split
  all_goals rfl

lemma construct_no_null_texture_call {Snap Value : Type} (k : ModelKernel Snap Value)
    (s : SerializedMaterial Snap) :
    TraceEvent.deserializeCall "texture-info" (none : Option Snap) ∉
      (Material.construct k s).trace := by
  unfold Material.construct
  dsimp only
  repeat' split
  all_goals simp [TraceEvent.deserializeCall.injEq]

lemma construct_base_error {Snap Value : Type} (k : ModelKernel Snap Value)
    (s : SerializedMaterial Snap) (e : String)
    (h : ThreeDOMElement.construct k s = Except.error e) :
    (Material.construct k s).result = Except.error e ∧
      (Material.construct k s).trace = [TraceEvent.superCall k s] := by
  unfold Material.construct
  rw [h]
  exact ⟨rfl, rfl⟩

lemma mem_of_mem_deserializeCalls {Snap Value : Type} {tr : List (TraceEvent Snap Value)}
    {kind : String} {arg : Option Snap} (h : (kind, arg) ∈ deserializeCalls tr) :
    TraceEvent.deserializeCall kind arg ∈ tr := by
  induction tr with
  | nil => simp [deserializeCalls] at h
  | cons e rest ih =>
    cases e with
    | superCall k s =>
      have hs : deserializeCalls (TraceEvent.superCall k s :: rest) = deserializeCalls rest := rfl
      rw [hs] at h
      exact List.Mem.tail _ (ih h)
    | deserializeCall k2 a2 =>
      have hs : deserializeCalls (TraceEvent.deserializeCall k2 a2 :: rest)
          = (k2, a2) :: deserializeCalls rest := rfl
      rw [hs] at h
      rcases List.mem_cons.mp h with h1 | h2
      · injection h1 with hk ha
        subst hk
        subst ha
        exact List.Mem.head _
      · exact List.Mem.tail _ (ih h2)

lemma access_fst {Snap Value : Type} (m : Material Snap Value) (op : MaterialMember) :
    (Material.access m op).1 = m := by
  cases op <;> rfl

lemma access_foldl {Snap Value : Type} (m : Material Snap Value) (ops : List MaterialMember) :
    ops.foldl (fun x op => (Material.access x op).1) m = m := by
  induction ops generalizing m with
  | nil => rfl
  | cons op rest ih => simp [access_fst, ih]

lemma construct_isOk_name_irrelevant {Snap Value : Type} (k : ModelKernel Snap Value)
    (s : SerializedMaterial Snap) (n : Option String) :
    ((Material.construct k { s with name := n }).result).isOk
      = ((Material.construct k s).result).isOk := by
  rw [Bool.eq_iff_iff, construct_isOk_iff, construct_isOk_iff]

/-- C1, counterexample: the claim also covers the `pbrMetallicRoughness`
field, but the constructor passes that field to `kernel.deserialize`
unconditionally — on a snapshot whose pbrMetallicRoughness is null, the
trace still holds a 'pbr-metallic-roughness' deserialize call for it. -/
theorem material_null_pbr_block_still_deserialized :
    snapNullPbr.pbrMetallicRoughness = none ∧
    TraceEvent.deserializeCall "pbr-metallic-roughness" (none : Option Nat) ∈
      (Material.construct natKernel snapNullPbr).trace :=
  ⟨rfl, List.Mem.tail _ (List.Mem.head _)⟩

/-- C1, amended: for the three optional texture fields (normalTexture,
occlusionTexture, emissiveTexture), a null snapshot value leaves the
corresponding slot unset, no 'texture-info' deserialize call is ever made
for a null field, and construction with all three fields null succeeds
whenever the base constructor and the (unconditional)
pbr-metallic-roughness deserialization succeed. -/
theorem material_null_texture_fields_skip_deserialize {Snap Value : Type}
    (k : ModelKernel Snap Value) (s : SerializedMaterial Snap) :
    TraceEvent.deserializeCall "texture-info" (none : Option Snap) ∉
      (Material.construct k s).trace ∧
    (∀ m, (Material.construct k s).result = Except.ok m →
      (s.normalTexture = none → m.normalTexture = none) ∧
      (s.occlusionTexture = none → m.occlusionTexture = none) ∧
      (s.emissiveTexture = none → m.emissiveTexture = none)) ∧
    (s.normalTexture = none → s.occlusionTexture = none → s.emissiveTexture = none →
      s.id.isSome = true →
      (k.deserialize "pbr-metallic-roughness" s.pbrMetallicRoughness).isOk = true →
      ((Material.construct k s).result).isOk = true) := by
  refine ⟨construct_no_null_texture_call k s, ?_, ?_⟩
  · intro m hm
    have c := construct_ok_char k s m hm
    exact ⟨c.2.2.2.2.1, c.2.2.2.2.2.2.1, c.2.2.2.2.2.2.2.2.1⟩
  · intro hnt hot het hid hpbr
    rw [construct_isOk_iff]
    refine ⟨hid, hpbr, ?_, ?_, ?_⟩ <;> intro t ht <;> simp_all

/-- C1, witness: on a concrete snapshot with all three texture fields
null, the amended claim yields unset texture slots and a successful
construction. -/
theorem material_null_texture_fields_skip_deserialize_witness :
    matTexturesAbsent.normalTexture = none ∧ matTexturesAbsent.occlusionTexture = none ∧
    matTexturesAbsent.emissiveTexture = none ∧
    ((Material.construct natKernel snapTexturesAbsent).result).isOk = true := by
  have h := material_null_texture_fields_skip_deserialize natKernel snapTexturesAbsent
  have h2 := h.2.1 matTexturesAbsent rfl
  exact ⟨h2.1 rfl, h2.2.1 rfl, h2.2.2 rfl, h.2.2 rfl rfl rfl rfl rfl⟩

/-- C2: every nested-structure field present in the snapshot is resolved
eagerly at construction — the constructor's trace holds a
`kernel.deserialize` call with the matching kind discriminator string and
the nested snapshot, the call's result is stored, and the matching
accessor returns exactly that resolved representation. -/
theorem material_present_nested_fields_deserialized_eagerly {Snap Value : Type}
    (k : ModelKernel Snap Value) (s : SerializedMaterial Snap) (m : Material Snap Value)
    (hm : (Material.construct k s).result = Except.ok m) :
    (TraceEvent.deserializeCall "pbr-metallic-roughness" s.pbrMetallicRoughness ∈
        (Material.construct k s).trace ∧
      k.deserialize "pbr-metallic-roughness" s.pbrMetallicRoughness
        = Except.ok m.pbrMetallicRoughness) ∧
    (∀ t, s.normalTexture = some t →
      TraceEvent.deserializeCall "texture-info" (some t) ∈ (Material.construct k s).trace ∧
      ∃ v, k.deserialize "texture-info" (some t) = Except.ok v ∧ m.normalTexture = some v) ∧
    (∀ t, s.occlusionTexture = some t →
      TraceEvent.deserializeCall "texture-info" (some t) ∈ (Material.construct k s).trace ∧
      ∃ v, k.deserialize "texture-info" (some t) = Except.ok v ∧ m.occlusionTexture = some v) ∧
    (∀ t, s.emissiveTexture = some t →
      TraceEvent.deserializeCall "texture-info" (some t) ∈ (Material.construct k s).trace ∧
      ∃ v, k.deserialize "texture-info" (some t) = Except.ok v ∧ m.emissiveTexture = some v) := by
  have hOk : ((Material.construct k s).result).isOk = true := by rw [hm]; rfl
  have htr := construct_trace_ok k s hOk
  have c := construct_ok_char k s m hm
  refine ⟨⟨?_, c.2.2.2.1⟩, ?_, ?_, ?_⟩
  · apply mem_of_mem_deserializeCalls
    rw [htr]
    exact List.Mem.head _
  · intro t ht
    refine ⟨?_, c.2.2.2.2.2.1 t ht⟩
    apply mem_of_mem_deserializeCalls
    rw [htr]
    simp [ht]
  · intro t ht
    refine ⟨?_, c.2.2.2.2.2.2.2.1 t ht⟩
    apply mem_of_mem_deserializeCalls
    rw [htr]
    simp [ht]
  · intro t ht
    refine ⟨?_, c.2.2.2.2.2.2.2.2.2 t ht⟩
    apply mem_of_mem_deserializeCalls
    rw [htr]
    simp [ht]

/-- C2, witness: on the specification's worked example (normalTexture
null, occlusionTexture and emissiveTexture present), the constructed
material reports normalTexture absent and both other texture references
resolved, and both 'texture-info' calls appear in the trace. -/
theorem material_present_nested_fields_deserialized_eagerly_witness :
    (TraceEvent.deserializeCall "texture-info" (some 20) ∈
        (Material.construct natKernel snapSpecExample).trace ∧
      matSpecExample.occlusionTexture = some 20) ∧
    (TraceEvent.deserializeCall "texture-info" (some 30) ∈
        (Material.construct natKernel snapSpecExample).trace ∧
      matSpecExample.emissiveTexture = some 30) ∧
    matSpecExample.normalTexture = none := by
  have h := material_present_nested_fields_deserialized_eagerly natKernel snapSpecExample
    matSpecExample rfl
  exact ⟨⟨(h.2.2.1 20 rfl).1, rfl⟩, ⟨(h.2.2.2 30 rfl).1, rfl⟩, rfl⟩

/-- C4: when the snapshot's optional `name` is absent the constructed
material's name accessor reports absent (not an empty string), when it is
present the accessor returns exactly that string, and whether
construction succeeds never depends on the name field. -/
theorem material_name_copied_only_when_present {Snap Value : Type}
    (k : ModelKernel Snap Value) (s : SerializedMaterial Snap) (n : Option String) :
    (∀ m, (Material.construct k s).result = Except.ok m → m.name = s.name) ∧
    ((Material.construct k { s with name := n }).result).isOk
      = ((Material.construct k s).result).isOk :=
  ⟨fun m hm => (construct_ok_char k s m hm).2.2.1, construct_isOk_name_irrelevant k s n⟩

/-- C4, witness: a concrete snapshot with `name` omitted constructs
successfully and reports its name as absent. -/
theorem material_name_copied_only_when_present_witness :
    matNoName.name = none ∧
    ((Material.construct natKernel { snapNoName with name := some "x" }).result).isOk
      = ((Material.construct natKernel snapNoName).result).isOk :=
  ⟨(material_name_copied_only_when_present natKernel snapNoName (some "x")).1 matNoName rfl,
   (material_name_copied_only_when_present natKernel snapNoName (some "x")).2⟩

/-- C5: the constructor's first action is delegating to the Element Base
constructor with its own two arguments, and if that base construction
throws, construction stops there — the error propagates and no
Material-specific population (in particular no deserialize call) occurs. -/
theorem material_constructor_delegates_to_base_first {Snap Value : Type}
    (k : ModelKernel Snap Value) (s : SerializedMaterial Snap) :
    (Material.construct k s).trace.head? = some (TraceEvent.superCall k s) ∧
    (∀ e, ThreeDOMElement.construct k s = Except.error e →
      (Material.construct k s).result = Except.error e ∧
      (Material.construct k s).trace = [TraceEvent.superCall k s]) :=
  ⟨construct_trace_head k s, fun e he => construct_base_error k s e he⟩

/-- C5, witness: on a concrete snapshot whose base construction fails,
the trace still begins with the super call and construction stops with
the base error. -/
theorem material_constructor_delegates_to_base_first_witness :
    (Material.construct natKernel snapNoId).trace.head?
        = some (TraceEvent.superCall natKernel snapNoId) ∧
    (Material.construct natKernel snapNoId).result = Except.error "identity missing" :=
  ⟨(material_constructor_delegates_to_base_first natKernel snapNoId).1,
   ((material_constructor_delegates_to_base_first natKernel snapNoId).2 "identity missing" rfl).1⟩

/-- C6: the Material class exposes exactly one read-only accessor per
field and no public write path — any sequence of public member accesses
leaves the instance unchanged, so no accessor's subsequent value can be
changed through the public interface. -/
theorem material_public_interface_read_only {Snap Value : Type}
    (m : Material Snap Value) (ops : List MaterialMember) (mem : MaterialMember) :
    ops.foldl (fun x op => (Material.access x op).1) m = m ∧
    (Material.access (ops.foldl (fun x op => (Material.access x op).1) m) mem).2
      = (Material.access m mem).2 :=
  ⟨access_foldl m ops, by rw [access_foldl]⟩

/-- C7: a malformed snapshot fails construction immediately — a missing
identity makes the base constructor (and hence construction) throw, and a
missing required pbrMetallicRoughness block makes construction throw as
soon as the kernel's deserialize rejects the nullish required field. -/
theorem material_malformed_snapshot_fails_construction {Snap Value : Type}
    (k : ModelKernel Snap Value) (s : SerializedMaterial Snap) :
    (s.id = none → (Material.construct k s).result = Except.error "identity missing") ∧
    (∀ e, s.id.isSome = true → s.pbrMetallicRoughness = none →
      k.deserialize "pbr-metallic-roughness" none = Except.error e →
      (Material.construct k s).result = Except.error e) := by
  constructor
  · intro hid
    exact (construct_base_error k s "identity missing"
      ((base_construct_error_iff k s "identity missing").mpr ⟨hid, rfl⟩)).1
  · intro e hid hpbr hdes
    obtain ⟨i, hi⟩ := Option.isSome_iff_exists.mp hid
    unfold Material.construct
    dsimp only
    rw [show ThreeDOMElement.construct k s = Except.ok ⟨i⟩ from
      (base_construct_ok_iff k s ⟨i⟩).mpr hi]
    rw [hpbr, hdes]

/-- C7, witness: under a kernel honoring the fail-fast contract, a
concrete snapshot without identity and a concrete snapshot without the
required pbrMetallicRoughness block both fail construction with an
error. -/
theorem material_malformed_snapshot_fails_construction_witness :
    (Material.construct strictKernel snapNoId).result = Except.error "identity missing" ∧
    (Material.construct strictKernel snapNullPbr).result
      = Except.error "missing required field" :=
  ⟨(material_malformed_snapshot_fails_construction strictKernel snapNoId).1 rfl,
   (material_malformed_snapshot_fails_construction strictKernel snapNullPbr).2
     "missing required field" rfl rfl rfl⟩

/-- C8: two snapshots with identical names but different identities both
construct into distinct instances, and sharing a name never affects
whether construction succeeds — name uniqueness is not enforced. -/
theorem material_duplicate_names_allowed {Snap Value : Type}
    (k : ModelKernel Snap Value) (s1 s2 : SerializedMaterial Snap)
    (m1 m2 : Material Snap Value) (_hname : s1.name = s2.name) (hid : s1.id ≠ s2.id)
    (h1 : (Material.construct k s1).result = Except.ok m1)
    (h2 : (Material.construct k s2).result = Except.ok m2) :
    m1 ≠ m2 ∧
    ((Material.construct k { s2 with name := s1.name }).result).isOk
      = ((Material.construct k s2).result).isOk := by
  refine ⟨?_, construct_isOk_name_irrelevant k s2 s1.name⟩
  intro hmm
  apply hid
  have c1 := (construct_ok_char k s1 m1 h1).1
  have c2 := (construct_ok_char k s2 m2 h2).1
  rw [c1, c2, hmm]

/-- C8, witness: two concrete snapshots sharing the name "dup" under
identities 1 and 2 both construct successfully into distinct instances. -/
theorem material_duplicate_names_allowed_witness :
    matDupNameA ≠ matDupNameB ∧
    (Material.construct natKernel snapDupNameA).result = Except.ok matDupNameA ∧
    (Material.construct natKernel snapDupNameB).result = Except.ok matDupNameB :=
  ⟨(material_duplicate_names_allowed natKernel snapDupNameA snapDupNameB matDupNameA
      matDupNameB rfl (by decide) rfl rfl).1, rfl, rfl⟩

/-- C9: whenever construction completes, the deserialize calls it issued
are exactly 'pbr-metallic-roughness' on the pbr field first, then
'texture-info' on normalTexture, occlusionTexture and emissiveTexture in
that order restricted to the non-null ones, so their number is 1 plus the
number of non-null texture fields. -/
theorem material_deserialize_call_sequence {Snap Value : Type}
    (k : ModelKernel Snap Value) (s : SerializedMaterial Snap)
    (h : ((Material.construct k s).result).isOk = true) :
    deserializeCalls (Material.construct k s).trace =
      ("pbr-metallic-roughness", s.pbrMetallicRoughness) ::
        (s.normalTexture.toList ++ s.occlusionTexture.toList ++ s.emissiveTexture.toList).map
          (fun t => ("texture-info", some t)) ∧
    (deserializeCalls (Material.construct k s).trace).length = 1 + numPresentTextures s := by
  have htr := construct_trace_ok k s h
  refine ⟨htr, ?_⟩
  rw [htr]
  cases hnt : s.normalTexture <;> cases hot : s.occlusionTexture <;>
    cases het : s.emissiveTexture <;> simp [numPresentTextures, hnt, hot, het]

/-- C9, witness: on the concrete worked example the call list is exactly
the pbr call followed by the two texture calls, of length 1 + 2. -/
theorem material_deserialize_call_sequence_witness :
    deserializeCalls (Material.construct natKernel snapSpecExample).trace =
      [("pbr-metallic-roughness", some 10),
        ("texture-info", some 20), ("texture-info", some 30)] ∧
    (deserializeCalls (Material.construct natKernel snapSpecExample).trace).length
      = 1 + numPresentTextures snapSpecExample := by
  have h := material_deserialize_call_sequence natKernel snapSpecExample rfl
  exact ⟨h.1, h.2⟩

/-- C10: construction only reads from the serialized snapshot and never
writes to it — with the snapshot threaded through every constructor
statement (the base constructor and `kernel.deserialize` not being handed
write access, as the claim assumes), the snapshot after construction
equals the snapshot passed in, for every kernel and snapshot. -/
theorem material_construct_preserves_snapshot {Snap Value : Type}
    (k : ModelKernel Snap Value) (s : SerializedMaterial Snap) :
    (Material.construct k s).snapshotAfter = s := by
  unfold Material.construct
  dsimp only
  repeat first | rfl | split

end ThreeDOM
